import Mathlib

/-!
Verification of the scan-execution backend (src/backend/main.py) of
garak-gui-ollama: a shallow embedding of the Identifier Normalizer, the
Result Parser, the Scan Record Store, the Scan Job Runner (run_scan) and
the WebSocket scan handler (websocket_scan), with theorems settling the
spec's claims about them.
-/

namespace GarakGui

/-- A Python string, as the sequence of its code points. -/
abbrev Str := List Char

/-- The code points of a Lean string literal. -/
def strLit (s : String) : Str := s.toList

/-- Embeds the local helper normalize_plugin_name of GarakRunner.run_scan
(src/backend/main.py lines 175-194). Python name.startswith(p) is
List.isPrefixOf, and the slice name[len(p):] is List.drop p.length. -/
def normalize_plugin_name (name : Str) (category : Str) : Str :=
  if (strLit "garak." ++ category ++ strLit ".").isPrefixOf name then
    name.drop (strLit "garak." ++ category ++ strLit ".").length
  else if (category ++ strLit ".").isPrefixOf name then
    name.drop (category ++ strLit ".").length
  else
    name

/-- The full Python-path form stripped first, f"garak.{category}." (line 184). -/
def fullPrefixOf (category : Str) : Str := strLit "garak." ++ category ++ strLit "."

/-- The plugin-path form stripped second, f"{category}." (line 189). -/
def catPrefixOf (category : Str) : Str := category ++ strLit "."

/-- An opaque token standing for the JSON object parsed from one report line
(the code reproduces it verbatim, never inspecting it). -/
abbrev Detail := Nat

/-- One raw line of a report*.jsonl file, by what parse_results (lines
292-298) observes of it: blank after line.strip(), json.loads succeeds with
some value, or json.loads raises. -/
inductive Line where
  | blank : Line
  | ok : Detail → Line
  | bad : Line
deriving DecidableEq

/-- The contents of a scan's output directory as parse_results discovers
them: the lines of each file matched by glob("report*.jsonl"), in glob
order, and the names of the files matched by glob("report*.html"), in glob
order. -/
structure OutputDir where
  jsonlFiles : List (List Line)
  htmlFiles : List Str
deriving DecidableEq

/-- The results dict built by parse_results (lines 284-289): the summary
placeholder stays the empty dict, details collects parsed report lines,
report_html an optional file name, report_path an optional retrieval path. -/
structure ScanResult where
  summary : Unit
  details : List Detail
  report_html : Option Str
  report_path : Option Str
deriving DecidableEq

/-- The inner loop of parse_results over one report*.jsonl file (lines
294-298), threading the shared results["details"] accumulator: blank lines
are skipped, parsed lines are appended, and a json.loads failure raises,
which the per-file except (line 299) catches — so it ends the file but keeps
the details appended before it. -/
def parse_report_file : List Line → List Detail → List Detail
  | [], acc => acc
  | Line.blank :: rest, acc => parse_report_file rest acc
  | Line.ok d :: rest, acc => parse_report_file rest (acc ++ [d])
  | Line.bad :: _, acc => acc

/-- Embeds GarakRunner.parse_results (src/backend/main.py lines 281-308). -/
def parse_results (dir : OutputDir) (scan_id : Str) : ScanResult :=
  let details := dir.jsonlFiles.foldl (fun acc file => parse_report_file file acc) []
  match dir.htmlFiles with
  | [] => { summary := (), details := details, report_html := none, report_path := none }
  | h :: _ =>
      { summary := (), details := details, report_html := some h,
        report_path := some (strLit "/api/scans/" ++ scan_id ++ strLit "/report") }

/-- An event sent over the scan WebSocket: the type-tagged JSON objects of
lines 165-169, 225-229, 242-246, 252-256, 261-265, 267-270 and 274-277. -/
inductive Event where
  | status : Str → Nat → Event
  | complete : Str → ScanResult → Event
  | error : Str → Event
deriving DecidableEq

/-- Whether an event terminates the protocol sequence (complete or error). -/
def isTerminalEvent : Event → Bool
  | Event.status _ _ => false
  | Event.complete _ _ => true
  | Event.error _ => true

/-- The environment one run_scan call runs against. channel k tells whether
the k-th await websocket.send_json of the call succeeds (false: the send
raises, as on a disconnected socket; sends are counted in program order,
the failed ones included). engineOk tells whether run_garak (lines 234-240)
returns True for the given argument vector — it catches cli.main's
exceptions itself and never raises. dir is what the engine left in the
output directory; excText stands for str(e) of a raised exception. -/
structure World where
  channel : Nat → Bool
  engineOk : List Str → Bool
  dir : OutputDir
  excText : Str

/-- Message of the first status event, f"Starting scan on model: {model_name}". -/
def startMsg (model_name : Str) : Str := strLit "Starting scan on model: " ++ model_name

/-- Message of the progress=10 status event. -/
def initializingMsg : Str := strLit "Initializing Garak..."

/-- Message of the progress=20 status event. -/
def runningMsg : Str := strLit "Running scan..."

/-- Message of the progress=100 status event. -/
def completedMsg : Str := strLit "Scan completed successfully!"

/-- Message of the error event emitted when run_garak returns False. -/
def failedMsg : Str := strLit "Scan failed. Check logs for details."

/-- Message of the error event of run_scan's except handler,
f"Scan error: {str(e)}". -/
def scanErrMsg (e : Str) : Str := strLit "Scan error: " ++ e

/-- The repeated probe flags (lines 197-200). -/
def probe_args (probes : List Str) : List Str :=
  (probes.map fun p => [strLit "--probes", normalize_plugin_name p (strLit "probes")]).flatten

/-- The repeated detector flags (lines 202-206); an absent (or empty, hence
falsy) detector list contributes nothing. -/
def detector_args (detectors : Option (List Str)) : List Str :=
  match detectors with
  | some ds =>
      (ds.map fun d => [strLit "--detectors", normalize_plugin_name d (strLit "detectors")]).flatten
  | none => []

/-- The absolute report path handed to the engine (lines 209-215), with
Path.resolve() abstracted away: DATA_DIR / scan_id / "report". -/
def reportPrefixPath (scan_id : Str) : Str :=
  strLit "data/" ++ scan_id ++ strLit "/report"

/-- The engine argument vector built at lines 217-223. -/
def scan_args (model_name : Str) (probes : List Str) (detectors : Option (List Str))
    (scan_id : Str) : List Str :=
  [strLit "--model_type", strLit "ollama", strLit "--model_name", model_name]
    ++ probe_args probes ++ detector_args detectors
    ++ [strLit "--report_prefix", reportPrefixPath scan_id]

/-- What one run_scan call came to: ret is Except.ok of the Python return
value (the parsed results dict or None) or Except.error () when an
exception escapes the function; events are the JSON objects the channel
actually delivered; sends counts the send attempts made (successful or
not), so the caller's next send uses channel index sends. -/
structure RunOutcome where
  ret : Except Unit (Option ScanResult)
  events : List Event
  sends : Nat

/-- The except clause of run_scan (lines 272-277): the exception is logged,
then one error event is sent — and that send itself is not guarded, so its
failure lets the new exception escape run_scan. results is the value the
function-scope variable holds when the handler runs (line 162 or 259). -/
def exceptClause (w : World) (results : Option ScanResult) (events : List Event)
    (k : Nat) : RunOutcome :=
  if w.channel k then
    { ret := Except.ok results, events := events ++ [Event.error (scanErrMsg w.excText)],
      sends := k + 1 }
  else
    { ret := Except.error (), events := events, sends := k + 1 }

/-- Embeds GarakRunner.run_scan (src/backend/main.py lines 153-279). Each
await websocket.send_json consumes the next channel index in program order:
0 the progress=0 status, 1 the progress=10 status, 2 the progress=20
status; then on engine success 3 the progress=100 status and 4 the complete
event, on engine failure 3 the error event; a failed send raises into the
except clause, whose own send uses the following index. The pure work
between sends (imports, normalization, mkdir, argument building) is modelled
as non-raising. -/
def run_scan (w : World) (model_name : Str) (probes : List Str)
    (detectors : Option (List Str)) (scan_id : Str) : RunOutcome :=
  if w.channel 0 then
    let ev0 : List Event := [Event.status (startMsg model_name) 0]
    if w.channel 1 then
      let ev1 := ev0 ++ [Event.status initializingMsg 10]
      if w.channel 2 then
        let ev2 := ev1 ++ [Event.status runningMsg 20]
        if w.engineOk (scan_args model_name probes detectors scan_id) then
          if w.channel 3 then
            let ev3 := ev2 ++ [Event.status completedMsg 100]
            let results := parse_results w.dir scan_id
            if w.channel 4 then
              { ret := Except.ok (some results),
                events := ev3 ++ [Event.complete scan_id results], sends := 5 }
            else
              exceptClause w (some results) ev3 5
          else
            exceptClause w none ev2 4
        else
          if w.channel 3 then
            { ret := Except.ok none, events := ev2 ++ [Event.error failedMsg], sends := 4 }
          else
            exceptClause w none ev2 4
      else
        exceptClause w none ev1 3
    else
      exceptClause w none ev0 2
  else
    exceptClause w none [] 1

/-- A record of scans.json, the dict built at lines 455-463 (and later
mutated at lines 478-484). -/
structure ScanRecord where
  id : Str
  timestamp : Str
  model_name : Str
  probes : List Str
  detectors : Option (List Str)
  description : Option Str
  status : Str
  results : Option ScanResult
deriving DecidableEq

/-- The backing scans.json file, by what load_scans observes of it: open
raises (missing file), read raises (unreadable), json.load raises (corrupt),
or a list of records is read. -/
inductive StoreFile where
  | missing : StoreFile
  | unreadable : StoreFile
  | corrupt : StoreFile
  | ok : List ScanRecord → StoreFile
deriving DecidableEq

/-- Embeds load_scans (src/backend/main.py lines 350-356): the bare except
turns every read failure into the empty list. -/
def load_scans : StoreFile → List ScanRecord
  | StoreFile.ok scans => scans
  | _ => []

/-- Embeds save_scan (src/backend/main.py lines 359-364): read the whole
collection, append in memory, rewrite the file. -/
def save_scan (scan : ScanRecord) (file : StoreFile) : StoreFile :=
  StoreFile.ok (load_scans file ++ [scan])

/-- The scan request read from the channel (the dict accesses at lines
455-463), with the fields the handler uses. -/
structure ScanRequest where
  model_name : Str
  probes : List Str
  detectors : Option (List Str)
  description : Option Str
deriving DecidableEq

/-- What await websocket.receive_json() (line 448) comes to: the client
disconnected (WebSocketDisconnect), some other exception (a malformed
payload), or a scan request. -/
inductive Receive where
  | disconnect : Receive
  | fail : Receive
  | ok : ScanRequest → Receive
deriving DecidableEq

/-- The scan_record dict built at lines 455-463: fresh id, timestamp, the
request's fields, status "running". -/
def mk_scan_record (req : ScanRequest) (scan_id timestamp : Str) : ScanRecord :=
  { id := scan_id, timestamp := timestamp, model_name := req.model_name,
    probes := req.probes, detectors := req.detectors,
    description := req.description, status := strLit "running", results := none }

/-- The update loop of websocket_scan (lines 478-484): the first record
whose id matches gets status "completed" and, when scan_results is truthy
(the parse_results dict is never empty, so: not None), the results attached;
break stops at the first match. -/
def update_scan : List ScanRecord → Str → Option ScanResult → List ScanRecord
  | [], _, _ => []
  | s :: rest, scan_id, results =>
    if s.id = scan_id then
      { s with status := strLit "completed",
               results := match results with
                          | some r => some r
                          | none => s.results } :: rest
    else
      s :: update_scan rest scan_id results

/-- The server-side state websocket_scan touches: the scans.json file and
the global active_connections list (connections abstracted to tokens). -/
structure ServerState where
  store : StoreFile
  active_connections : List Nat
deriving DecidableEq

/-- Embeds the websocket_scan endpoint (src/backend/main.py lines 440-501).
ws is the connection object, scan_id models str(uuid.uuid4()), timestamp
models datetime.now().isoformat(). Returns the server state on exit and the
events delivered on the channel: run_scan's own, then — when an exception
reaches the outer except Exception — one more error-send attempt whose
failure the inner try swallows (lines 492-498). The finally clause removes
the connection from active_connections (lines 499-501). -/
def websocket_scan (w : World) (recv : Receive) (ws : Nat) (scan_id timestamp : Str)
    (st : ServerState) : ServerState × List Event :=
  let conns := st.active_connections ++ [ws]
  match recv with
  | Receive.disconnect =>
      ({ store := st.store, active_connections := conns.erase ws }, [])
  | Receive.fail =>
      ({ store := st.store, active_connections := conns.erase ws },
       if w.channel 0 then [Event.error w.excText] else [])
  | Receive.ok req =>
      let record := mk_scan_record req scan_id timestamp
      let store1 := save_scan record st.store
      let out := run_scan w req.model_name req.probes req.detectors scan_id
      match out.ret with
      | Except.ok scan_results =>
          let scans2 := update_scan (load_scans store1) scan_id scan_results
          ({ store := StoreFile.ok scans2, active_connections := conns.erase ws },
           out.events)
      | Except.error _ =>
          ({ store := store1, active_connections := conns.erase ws },
           out.events ++ (if w.channel out.sends then [Event.error w.excText] else []))

/-- A concrete model name for witnesses and counterexamples. -/
def m0 : Str := strLit "llama3"

/-- A concrete probe list. -/
def ps0 : List Str := [strLit "dan.DAN_Jailbreak"]

/-- A concrete scan id. -/
def sid0 : Str := strLit "scan-1"

/-- A concrete timestamp. -/
def ts0 : Str := strLit "2026-10-12T00:00:00"

/-- A concrete scan request. -/
def req0 : ScanRequest := { model_name := m0, probes := ps0, detectors := none,
                            description := none }

/-- A world whose channel never fails and whose engine run succeeds with an
empty output directory. -/
def okChannelWorld : World :=
  { channel := fun _ => true, engineOk := fun _ => true,
    dir := { jsonlFiles := [], htmlFiles := [] }, excText := strLit "e" }

/-- A world whose client is gone from the start: every send raises. -/
def deadChannelWorld : World :=
  { channel := fun _ => false, engineOk := fun _ => true,
    dir := { jsonlFiles := [], htmlFiles := [] }, excText := strLit "e" }

/-- A world whose client disconnects while the engine invocation is in
flight: the three sends before the engine call succeed, every later send
raises; the engine run itself succeeds. -/
def discoWorld : World :=
  { channel := fun n => decide (n < 3), engineOk := fun _ => true,
    dir := { jsonlFiles := [], htmlFiles := [] }, excText := strLit "e" }

/-- A name of the form full-Python-path ++ rest normalizes to rest. -/
theorem normalize_eq_of_full (name category r : Str) (h : name = fullPrefixOf category ++ r) :
    normalize_plugin_name name category = r := by
  subst h
  unfold normalize_plugin_name fullPrefixOf
  rw [if_pos (List.isPrefixOf_iff_prefix.mpr (List.prefix_append _ _))]
  exact List.drop_left _ _

/-- A name that matches no appended form of p has p.isPrefixOf false. -/
theorem not_isPrefixOf_of_ne_append (p name : Str) (h : ∀ s, name ≠ p ++ s) :
    p.isPrefixOf name = false := by
  cases hc : p.isPrefixOf name with
  | false => rfl
  | true =>
      rcases List.isPrefixOf_iff_prefix.mp hc with ⟨t, ht⟩
      exact absurd ht.symm (h t)

/-- A name with the category-only form but not the full form normalizes to
the rest after the category-only form. -/
theorem normalize_eq_of_cat (name category r : Str)
    (hfull : ∀ s, name ≠ fullPrefixOf category ++ s)
    (h : name = catPrefixOf category ++ r) :
    normalize_plugin_name name category = r := by
  have h1 := not_isPrefixOf_of_ne_append (fullPrefixOf category) name hfull
  subst h
  unfold normalize_plugin_name
  unfold fullPrefixOf catPrefixOf at h1
  unfold catPrefixOf
  rw [h1]
  simp only [Bool.false_eq_true, if_false]
  rw [if_pos (List.isPrefixOf_iff_prefix.mpr (List.prefix_append _ _))]
  exact List.drop_left _ _

/-- A name with neither form is returned unchanged. -/
theorem normalize_eq_self (name category : Str)
    (hfull : ∀ s, name ≠ fullPrefixOf category ++ s)
    (hcat : ∀ s, name ≠ catPrefixOf category ++ s) :
    normalize_plugin_name name category = name := by
  have h1 := not_isPrefixOf_of_ne_append (fullPrefixOf category) name hfull
  have h2 := not_isPrefixOf_of_ne_append (catPrefixOf category) name hcat
  unfold fullPrefixOf at h1
  unfold catPrefixOf at h2
  unfold normalize_plugin_name
  rw [h1, h2]
  simp only [Bool.false_eq_true, if_false]

/-- C6: normalize_plugin_name strips the fully-qualified form
garak.category. when the name has it, else strips the category-only form
category. when the name has it, else returns the name unchanged; and for
category probes, each of probes.dan.X, garak.probes.dan.X and dan.X
normalizes to dan.X. -/
theorem C6_normalize_strips :
    (∀ name category r : Str, name = fullPrefixOf category ++ r →
        normalize_plugin_name name category = r) ∧
    (∀ name category r : Str, (∀ s, name ≠ fullPrefixOf category ++ s) →
        name = catPrefixOf category ++ r → normalize_plugin_name name category = r) ∧
    (∀ name category : Str, (∀ s, name ≠ fullPrefixOf category ++ s) →
        (∀ s, name ≠ catPrefixOf category ++ s) →
        normalize_plugin_name name category = name) ∧
    normalize_plugin_name (strLit "probes.dan.X") (strLit "probes") = strLit "dan.X" ∧
    normalize_plugin_name (strLit "garak.probes.dan.X") (strLit "probes") = strLit "dan.X" ∧
    normalize_plugin_name (strLit "dan.X") (strLit "probes") = strLit "dan.X" :=
  ⟨normalize_eq_of_full, normalize_eq_of_cat, normalize_eq_self,
   by decide, by decide, by decide⟩

/-- C6 witness: the first clause of C6_normalize_strips applied at a
concrete fully-qualified name. -/
theorem C6_normalize_strips_witness :
    normalize_plugin_name (strLit "garak.probes.dan.Y") (strLit "probes") = strLit "dan.Y" :=
  C6_normalize_strips.1 (strLit "garak.probes.dan.Y") (strLit "probes") (strLit "dan.Y")
    (by decide)

/-- C5 counterexample: normalize is not idempotent on every string — a name
whose remainder after one strip again starts with the category-only form is
stripped twice. -/
theorem C5_counterexample :
    normalize_plugin_name
        (normalize_plugin_name (strLit "probes.probes.a") (strLit "probes")) (strLit "probes")
      ≠ normalize_plugin_name (strLit "probes.probes.a") (strLit "probes") := by
  decide

/-- C5 (amended): normalize_plugin_name is idempotent on every name whose
normalized form does not itself start with the garak.category. or the
category. form — in particular on every prefix form of a CLI-style base
name. -/
theorem C5_normalize_idempotent (name category : Str)
    (h1 : (fullPrefixOf category).isPrefixOf (normalize_plugin_name name category) = false)
    (h2 : (catPrefixOf category).isPrefixOf (normalize_plugin_name name category) = false) :
    normalize_plugin_name (normalize_plugin_name name category) category
      = normalize_plugin_name name category := by
  unfold fullPrefixOf at h1
  unfold catPrefixOf at h2
  generalize hgen : normalize_plugin_name name category = y at h1 h2 ⊢
  unfold normalize_plugin_name
  rw [h1, h2]
  simp only [Bool.false_eq_true, if_false]

/-- C5 witness: idempotence at the concrete name probes.dan.X. -/
theorem C5_normalize_idempotent_witness :
    (fullPrefixOf (strLit "probes")).isPrefixOf
        (normalize_plugin_name (strLit "probes.dan.X") (strLit "probes")) = false ∧
    (catPrefixOf (strLit "probes")).isPrefixOf
        (normalize_plugin_name (strLit "probes.dan.X") (strLit "probes")) = false ∧
    normalize_plugin_name
        (normalize_plugin_name (strLit "probes.dan.X") (strLit "probes")) (strLit "probes")
      = normalize_plugin_name (strLit "probes.dan.X") (strLit "probes") :=
  ⟨by decide, by decide,
   C5_normalize_idempotent (strLit "probes.dan.X") (strLit "probes") (by decide) (by decide)⟩

/-- C4 counterexample: an output directory with one malformed report line
followed by one well-formed line in the same file yields zero detail
records, not exactly one — the json.loads failure is caught by the per-file
except, so it aborts the rest of that file. -/
theorem C4_counterexample :
    ((parse_results { jsonlFiles := [[Line.bad, Line.ok 0]], htmlFiles := [] }
        sid0).details).length ≠ 1 := by
  decide

/-- C4 (amended): a report line that fails to parse is logged and aborts the
remainder of its own file — the details already parsed from that file and
all other files are unaffected and no error is raised — so with one
well-formed and one malformed line the result has exactly one detail record
whenever the malformed line does not precede the well-formed one in the same
file. -/
theorem C4_parse_tolerance :
    (∀ (ls rest : List Line) (acc : List Detail),
        parse_report_file (ls ++ Line.bad :: rest) acc = parse_report_file ls acc) ∧
    (∀ (d : Detail) (sid : Str),
        (parse_results { jsonlFiles := [[Line.ok d, Line.bad]], htmlFiles := [] } sid).details
          = [d] ∧
        (parse_results { jsonlFiles := [[Line.bad], [Line.ok d]], htmlFiles := [] } sid).details
          = [d]) := by
  constructor
  · intro ls rest acc
    induction ls generalizing acc with
    | nil => rfl
    | cons a t ih => cases a <;> simp [parse_report_file, ih]
  · intro d sid
    exact ⟨rfl, rfl⟩

/-- C8: parse_results returns a result for every output directory — when a
rendered-report file is discovered the result names the first one and
derives the retrieval path /api/scans/scan_id/report, and when no artifact
exists at all the result has empty details and no report name or path. -/
theorem C8_parse_results_total (dir : OutputDir) (sid : Str) :
    (∀ h t, dir.htmlFiles = h :: t →
        (parse_results dir sid).report_html = some h ∧
        (parse_results dir sid).report_path
          = some (strLit "/api/scans/" ++ sid ++ strLit "/report")) ∧
    (dir.jsonlFiles = [] → dir.htmlFiles = [] →
        (parse_results dir sid).details = [] ∧
        (parse_results dir sid).report_html = none ∧
        (parse_results dir sid).report_path = none) := by
  constructor
  · intro h t hh
    unfold parse_results
    rw [hh]
    exact ⟨rfl, rfl⟩
  · intro hj hh
    unfold parse_results
    rw [hj, hh]
    exact ⟨rfl, rfl, rfl⟩

/-- C8 witness: report discovery at a directory holding report.html, and the
zero-artifact directory. -/
theorem C8_parse_results_total_witness :
    (parse_results { jsonlFiles := [], htmlFiles := [strLit "report.html"] } sid0).report_html
      = some (strLit "report.html") ∧
    (parse_results { jsonlFiles := [], htmlFiles := [strLit "report.html"] } sid0).report_path
      = some (strLit "/api/scans/" ++ sid0 ++ strLit "/report") ∧
    (parse_results { jsonlFiles := [], htmlFiles := [] } sid0).details = [] ∧
    (parse_results { jsonlFiles := [], htmlFiles := [] } sid0).report_html = none ∧
    (parse_results { jsonlFiles := [], htmlFiles := [] } sid0).report_path = none := by
  refine ⟨?_, ?_, ?_, ?_, ?_⟩
  · exact ((C8_parse_results_total ⟨[], [strLit "report.html"]⟩ sid0).1 _ _ rfl).1
  · exact ((C8_parse_results_total ⟨[], [strLit "report.html"]⟩ sid0).1 _ _ rfl).2
  · exact ((C8_parse_results_total ⟨[], []⟩ sid0).2 rfl rfl).1
  · exact ((C8_parse_results_total ⟨[], []⟩ sid0).2 rfl rfl).2.1
  · exact ((C8_parse_results_total ⟨[], []⟩ sid0).2 rfl rfl).2.2

/-- C9: every way the backing scans.json can fail to read — missing file,
unreadable file, corrupt JSON — makes load_scans return the empty list
instead of propagating the failure. -/
theorem C9_load_scans_degrades :
    load_scans StoreFile.missing = [] ∧ load_scans StoreFile.unreadable = [] ∧
    load_scans StoreFile.corrupt = [] :=
  ⟨rfl, rfl, rfl⟩

/-- When no send fails, run_scan returns normally: the parsed results on
engine success, None on engine failure. Shared helper for the run_scan
claims. -/
theorem run_scan_ret_channel_ok (w : World) (model_name : Str) (probes : List Str)
    (detectors : Option (List Str)) (scan_id : Str) (hch : ∀ n, w.channel n = true) :
    (run_scan w model_name probes detectors scan_id).ret
      = Except.ok (if w.engineOk (scan_args model_name probes detectors scan_id)
                   then some (parse_results w.dir scan_id) else none) := by
  unfold run_scan
  by_cases he : w.engineOk (scan_args model_name probes detectors scan_id) = true <;>
    simp [hch 0, hch 1, hch 2, hch 3, hch 4, he]

/-- C1 counterexample: with the client gone from the very start every send
raises, so a run_scan invocation emits zero terminal events — not exactly
one. -/
theorem C1_counterexample :
    ((run_scan deadChannelWorld m0 ps0 none sid0).events.filter isTerminalEvent).length ≠ 1 := by
  decide

/-- C1 (amended): every run_scan invocation emits at most one terminal event
on the channel — never both a complete and an error — and exactly one
whenever every channel send succeeds; only a failing channel (disconnected
client) can bring the count to zero. -/
theorem C1_one_terminal_event (w : World) (model_name : Str) (probes : List Str)
    (detectors : Option (List Str)) (scan_id : Str) :
    ((run_scan w model_name probes detectors scan_id).events.filter isTerminalEvent).length ≤ 1 ∧
    ((∀ n, w.channel n = true) →
      ((run_scan w model_name probes detectors scan_id).events.filter
          isTerminalEvent).length = 1) := by
  constructor
  · rcases Bool.eq_false_or_eq_true (w.channel 0) with h0 | h0 <;>
    rcases Bool.eq_false_or_eq_true (w.channel 1) with h1 | h1 <;>
    rcases Bool.eq_false_or_eq_true (w.channel 2) with h2 | h2 <;>
    rcases Bool.eq_false_or_eq_true (w.channel 3) with h3 | h3 <;>
    rcases Bool.eq_false_or_eq_true (w.channel 4) with h4 | h4 <;>
    rcases Bool.eq_false_or_eq_true (w.channel 5) with h5 | h5 <;>
    rcases Bool.eq_false_or_eq_true
        (w.engineOk (scan_args model_name probes detectors scan_id)) with he | he <;>
      simp [run_scan, exceptClause, h0, h1, h2, h3, h4, h5, he, isTerminalEvent]
  · intro hch
    unfold run_scan exceptClause
    by_cases he : w.engineOk (scan_args model_name probes detectors scan_id) = true <;>
      simp [hch 0, hch 1, hch 2, hch 3, hch 4, he, isTerminalEvent]

/-- C1 witness: with an always-working channel the invocation emits exactly
one terminal event. -/
theorem C1_one_terminal_event_witness :
    ((run_scan okChannelWorld m0 ps0 none sid0).events.filter isTerminalEvent).length = 1 :=
  (C1_one_terminal_event okChannelWorld m0 ps0 none sid0).2 (fun _ => rfl)

/-- C2 counterexample: with every send raising (client disconnected), the
error send inside run_scan's except handler raises too and the exception
escapes run_scan to its caller. -/
theorem C2_counterexample :
    (run_scan deadChannelWorld m0 ps0 none sid0).ret = Except.error () := rfl

/-- C2 (amended): every exception in run_scan's steps is caught and turned
into an attempt to send an error event, and when every channel send
succeeds the function returns a result object or None; but when the error
send inside the except handler itself fails the exception propagates to the
caller, which requires two consecutive failing sends. -/
theorem C2_exception_escape (w : World) (model_name : Str) (probes : List Str)
    (detectors : Option (List Str)) (scan_id : Str) :
    ((∀ n, w.channel n = true) →
        (run_scan w model_name probes detectors scan_id).ret
          = Except.ok (if w.engineOk (scan_args model_name probes detectors scan_id)
                       then some (parse_results w.dir scan_id) else none)) ∧
    ((run_scan w model_name probes detectors scan_id).ret = Except.error () →
        ∃ n, w.channel n = false ∧ w.channel (n + 1) = false) := by
  constructor
  · exact run_scan_ret_channel_ok w model_name probes detectors scan_id
  · rcases Bool.eq_false_or_eq_true (w.channel 0) with h0 | h0 <;>
    rcases Bool.eq_false_or_eq_true (w.channel 1) with h1 | h1 <;>
    rcases Bool.eq_false_or_eq_true (w.channel 2) with h2 | h2 <;>
    rcases Bool.eq_false_or_eq_true (w.channel 3) with h3 | h3 <;>
    rcases Bool.eq_false_or_eq_true (w.channel 4) with h4 | h4 <;>
    rcases Bool.eq_false_or_eq_true (w.channel 5) with h5 | h5 <;>
    rcases Bool.eq_false_or_eq_true
        (w.engineOk (scan_args model_name probes detectors scan_id)) with he | he <;>
      simp [run_scan, exceptClause, h0, h1, h2, h3, h4, h5, he] <;>
      first
        | exact ⟨0, h0, h1⟩
        | exact ⟨1, h1, h2⟩
        | exact ⟨2, h2, h3⟩
        | exact ⟨3, h3, h4⟩
        | exact ⟨4, h4, h5⟩

/-- C2 witness: with an always-working channel run_scan returns the parsed
results. -/
theorem C2_exception_escape_witness :
    (run_scan okChannelWorld m0 ps0 none sid0).ret
      = Except.ok (if okChannelWorld.engineOk (scan_args m0 ps0 none sid0)
                   then some (parse_results okChannelWorld.dir sid0) else none) :=
  (C2_exception_escape okChannelWorld m0 ps0 none sid0).1 (fun _ => rfl)

/-- C3: evaluation at the failing input. The client disconnects after the
progress=20 event while the engine invocation is in flight (discoWorld);
the engine run still completes successfully, but the error send of
run_scan's except handler raises, the exception escapes run_scan, the store
update of websocket_scan is skipped, and the scan's record stays at status
running with no results — it is never updated to its terminal status, and
no event of the invocation after the disconnect is delivered. -/
theorem C3_disconnect_record_stuck :
    (run_scan discoWorld m0 ps0 none sid0).ret = Except.error () ∧
    (websocket_scan discoWorld (Receive.ok req0) 7 sid0 ts0
        { store := StoreFile.ok [], active_connections := [] }).1.store
      = StoreFile.ok [mk_scan_record req0 sid0 ts0] ∧
    (mk_scan_record req0 sid0 ts0).status = strLit "running" ∧
    (run_scan discoWorld m0 ps0 none sid0).events.filter isTerminalEvent = [] :=
  ⟨rfl, by decide, rfl, by decide⟩

/-- Appending a record to the store via save_scan makes it the last record
loadAll returns. -/
theorem load_scans_save (scan : ScanRecord) (file : StoreFile) :
    load_scans (save_scan scan file) = load_scans file ++ [scan] := rfl

/-- The update loop of websocket_scan on a collection whose last record is
the only one with the matching id: every earlier record is untouched and
the matching one gets status completed and, when results exist, the results
attached. -/
theorem update_scan_append (l : List ScanRecord) (r : ScanRecord) (sid : Str)
    (res : Option ScanResult) (hl : ∀ x ∈ l, x.id ≠ sid) (hr : r.id = sid) :
    update_scan (l ++ [r]) sid res
      = l ++ [{ r with
                status := strLit "completed",
                results := (match res with
                            | some v => some v
                            | none => r.results) }] := by
  induction l with
  | nil => simp [update_scan, hr]
  | cons a t ih =>
      have ha : a.id ≠ sid := hl a (List.mem_cons_self a t)
      simp only [List.cons_append, update_scan, if_neg ha, List.cons.injEq, true_and]
      exact ih (fun x hx => hl x (List.mem_cons_of_mem a hx))

/-- C7: for every accepted scan request (fresh id, working channel), the
record appended to the store before the scan runs has the fresh id and
status running — save_scan makes loadAll contain it — and after the engine
run finishes, on engine success or engine failure alike, websocket_scan
rewrites the store with that one record mutated to status completed, the
parsed results attached exactly when the engine succeeded (engine failure
leaves the record completed with no results attached). -/
theorem C7_record_lifecycle (w : World) (req : ScanRequest) (ws : Nat)
    (scan_id timestamp : Str) (st : ServerState)
    (hch : ∀ n, w.channel n = true)
    (hfresh : ∀ r ∈ load_scans st.store, r.id ≠ scan_id) :
    (mk_scan_record req scan_id timestamp).status = strLit "running" ∧
    load_scans (save_scan (mk_scan_record req scan_id timestamp) st.store)
      = load_scans st.store ++ [mk_scan_record req scan_id timestamp] ∧
    (websocket_scan w (Receive.ok req) ws scan_id timestamp st).1.store
      = StoreFile.ok (load_scans st.store ++
          [{ mk_scan_record req scan_id timestamp with
               status := strLit "completed",
               results :=
                 if w.engineOk (scan_args req.model_name req.probes req.detectors scan_id)
                 then some (parse_results w.dir scan_id) else none }]) := by
  refine ⟨rfl, rfl, ?_⟩
  have hret := run_scan_ret_channel_ok w req.model_name req.probes req.detectors scan_id hch
  simp only [websocket_scan, hret, load_scans_save]
  rw [update_scan_append (load_scans st.store) (mk_scan_record req scan_id timestamp)
      scan_id _ hfresh rfl]
  by_cases he : w.engineOk (scan_args req.model_name req.probes req.detectors scan_id) = true <;>
    simp [he, mk_scan_record]

/-- C7 witness: the lifecycle at a concrete request against an empty store
with a working channel and a succeeding engine. -/
theorem C7_record_lifecycle_witness :
    (mk_scan_record req0 sid0 ts0).status = strLit "running" ∧
    load_scans (save_scan (mk_scan_record req0 sid0 ts0) (StoreFile.ok []))
      = [] ++ [mk_scan_record req0 sid0 ts0] ∧
    (websocket_scan okChannelWorld (Receive.ok req0) 3 sid0 ts0
        { store := StoreFile.ok [], active_connections := [] }).1.store
      = StoreFile.ok ([] ++ [{ mk_scan_record req0 sid0 ts0 with
          status := strLit "completed",
          results := some (parse_results okChannelWorld.dir sid0) }]) :=
  C7_record_lifecycle okChannelWorld req0 3 sid0 ts0
    { store := StoreFile.ok [], active_connections := [] }
    (fun _ => rfl) (by intro r hr; cases hr)

/-- C10: when the channel disconnects or the initial receive fails before a
scan request is received, the store's backing collection is unchanged — no
scan record is appended — no status or complete event is delivered (at most
one error event), and the connection is still removed from the global
active-connections list on exit. -/
theorem C10_no_request_no_record (w : World) (recv : Receive) (ws : Nat)
    (scan_id timestamp : Str) (st : ServerState)
    (hrecv : recv = Receive.disconnect ∨ recv = Receive.fail)
    (hws : ws ∉ st.active_connections) :
    (websocket_scan w recv ws scan_id timestamp st).1.store = st.store ∧
    (∀ e ∈ (websocket_scan w recv ws scan_id timestamp st).2, ∃ m, e = Event.error m) ∧
    (websocket_scan w recv ws scan_id timestamp st).1.active_connections
      = st.active_connections := by
  have hconns : (st.active_connections ++ [ws]).erase ws = st.active_connections := by
    rw [List.erase_append_right _ hws]
    simp
  rcases hrecv with h | h <;> subst h
  · exact ⟨rfl, fun e he => absurd he (List.not_mem_nil e), hconns⟩
  · refine ⟨rfl, ?_, hconns⟩
    intro e he
    by_cases hc : w.channel 0 = true
    · simp only [websocket_scan, hc, if_true, List.mem_singleton] at he
      exact ⟨w.excText, he⟩
    · simp only [websocket_scan, hc, if_false] at he
      exact absurd he (by simp [hc])

/-- C10 witness: a disconnect before any request against an empty store. -/
theorem C10_no_request_no_record_witness :
    (websocket_scan okChannelWorld Receive.disconnect 5 sid0 ts0
        { store := StoreFile.ok [], active_connections := [] }).1.store = StoreFile.ok [] ∧
    (∀ e ∈ (websocket_scan okChannelWorld Receive.disconnect 5 sid0 ts0
        { store := StoreFile.ok [], active_connections := [] }).2, ∃ m, e = Event.error m) ∧
    (websocket_scan okChannelWorld Receive.disconnect 5 sid0 ts0
        { store := StoreFile.ok [], active_connections := [] }).1.active_connections = [] :=
  C10_no_request_no_record okChannelWorld Receive.disconnect 5 sid0 ts0
    { store := StoreFile.ok [], active_connections := [] }
    (Or.inl rfl) (List.not_mem_nil 5)

end GarakGui
